import Mathlib

/-
Verification of the Garmin auth wrapper (src/garmin_auth_wrapper.py).

The script resolves an authenticated session for the downstream garmindb
CLI: it tries to resume a stored session, falls back to interactive login,
persists the session and a credential record, and finally hands off
execution in-process after substituting the auth-client constructor.

The shallow embedding below follows the source line by line:
  * JSON documents are modelled as association lists in insertion order,
    with Python dict update semantics (replace in place, append if new).
  * the resolver (lines 18-103) becomes a pure function from a `World`
    describing the environment (filesystem state, stdin lines, which
    library calls raise) to a `RunResult` recording the observable effects
    (exit, prompting, login call, session save, config file state).
  * the handoff tail (lines 105-180) becomes the target locator, the
    argument injection, and the constructor-substitution model.
-/

namespace GarminAuthWrapper

/-- JSON values as produced by the json module used at lines 77, 89, 94 of
the source: strings, numbers, booleans, null, arrays, and objects. Objects
are association lists of string keys in insertion order, matching Python
dict semantics for documents loaded by json.load. -/
inductive JVal : Type
  | str (s : String)
  | num (n : Int)
  | jbool (b : Bool)
  | jnull
  | arr (xs : List JVal)
  | obj (fields : List (String × JVal))

/-- A top-level JSON object document; GarminConnectConfig.json holds a JSON
object, whose entries we keep as an association list in insertion order. -/
abbrev Doc : Type := List (String × JVal)

/-- Python `str.strip()` with no argument, as called on the stdin lines at
source lines 45 and 52: removes leading and trailing whitespace. -/
def pyStrip (s : String) : String :=
  ⟨((s.data.dropWhile Char.isWhitespace).reverse.dropWhile Char.isWhitespace).reverse⟩

/-- Python `k in d` on a dict (source line 82). -/
def hasKey (d : Doc) (k : String) : Bool :=
  d.any (fun kv => kv.1 == k)

/-- Python `d[k]` lookup on a dict: the value of the first entry whose key
is `k` (a Python dict has at most one such entry). -/
def getKey (d : Doc) (k : String) : Option JVal :=
  (d.find? (fun kv => kv.1 == k)).map Prod.snd

/-- Python `d[k] = v` on a dict: replaces the value of an existing key in
place (keeping its position), appends a new entry otherwise (source lines
83, 85, 86). -/
def setKey (d : Doc) (k : String) (v : JVal) : Doc :=
  if hasKey d k then d.map (fun kv => if kv.1 == k then (k, v) else kv)
  else d ++ [(k, v)]

/-- Outcome of the credential-update block at source lines 82-89: either
the document that json.dump writes, or a raised exception. -/
inductive WriteResult : Type
  | written (d : Doc)
  | raised

/-- Source lines 82-83: when `"credentials" not in config_data`, assign an
empty dict to `config_data["credentials"]`. -/
def ensureCredentials (d : Doc) : Doc :=
  if hasKey d "credentials" then d else d ++ [("credentials", JVal.obj [])]

/-- Source lines 82-89: ensure a `credentials` entry exists, assign
`config_data["credentials"]["username"] = email` and
`config_data["credentials"]["password"] = password`, and hand the updated
document to json.dump. When the pre-existing `credentials` value is not a
JSON object (not a dict), the nested item assignment raises TypeError in
Python (caught by the surrounding try at line 98), so no document is
produced. -/
def updateConfig (d : Doc) (email password : String) : WriteResult :=
  match getKey (ensureCredentials d) "credentials" with
  | some (JVal.obj o) =>
      WriteResult.written
        (setKey (ensureCredentials d) "credentials"
          (JVal.obj (setKey (setKey o "username" (JVal.str email))
                            "password" (JVal.str password))))
  | _ => WriteResult.raised

/-- State of the config file GarminConnectConfig.json as the source
observes it: absent (os.path.exists false at line 74), present but not
parseable (json.load raises JSONDecodeError at line 78), or present and
parsed to a top-level object document. -/
inductive ConfigFile : Type
  | absent
  | invalid
  | valid (d : Doc)

/-- Source lines 73-79: start from an empty dict, and only when the file
exists and json.load succeeds use the parsed document; a JSONDecodeError
leaves the empty dict. -/
def readConfigDocument : ConfigFile → Doc
  | ConfigFile.absent => []
  | ConfigFile.invalid => []
  | ConfigFile.valid d => d

/-- The environment of one run of `main` (source lines 18-103): filesystem
session state, which garth calls raise, the two stdin lines, the config
file state, and whether the config write or its read-back verification
raises. -/
structure World : Type where
  sessionDirExists : Bool
  resumeRaises : Bool
  probeRaises : Bool
  emailLine : String
  passwordLine : String
  loginRaises : Bool
  saveRaises : Bool
  configFile : ConfigFile
  dumpRaises : Bool
  verifyRaises : Bool

/-- Observable effects of the resolver part of `main` (source lines
18-103). `exitCode = some c` means sys.exit(c) ran inside the resolver;
`none` means control reached the handoff section at line 105. -/
structure RunResult : Type where
  exitCode : Option Nat
  prompted : Bool
  loginCalled : Option (String × String)
  sessionSaved : Bool
  configWarning : Bool
  fileAfter : ConfigFile

/-- Source lines 22-34: `session_valid` is set only when the session
directory exists, garth.resume does not raise, and the liveness probe
`garth.client.username` does not raise; every failure is caught and leaves
`session_valid = False`. -/
def sessionValid (w : World) : Bool :=
  w.sessionDirExists && !w.resumeRaises && !w.probeRaises

/-- Source lines 71-99, the inner try block: read the config document,
update the credentials, write with json.dump, and verify by reading back.
Returns the config file state afterwards and whether the except at line 98
printed the warning. A raise of the nested assignment leaves the file
untouched; a raise of the in-place json.dump (the file was already
truncated by open(config_file, "w") at line 88) leaves partial content
that no longer parses; a raise of the verification leaves the freshly
written document on disk. -/
def configPhase (file : ConfigFile) (email password : String)
    (dumpRaises verifyRaises : Bool) : ConfigFile × Bool :=
  match updateConfig (readConfigDocument file) email password with
  | WriteResult.raised => (file, true)
  | WriteResult.written d =>
      if dumpRaises then (ConfigFile.invalid, true)
      else if verifyRaises then (ConfigFile.valid d, true)
      else (ConfigFile.valid d, false)

/-- Source lines 37-103: the interactive branch taken when no valid
session exists. Prompts are printed before each read, so every result here
has `prompted = true`. Empty (post-strip) email or password exits with
status 1 before garth.login is called (lines 46-48, 53-55); a raise of
garth.login, or of the session save at lines 63-65, is caught at line 101
and exits with status 1; otherwise the session is saved and the config
phase runs, whose failures only produce a warning. -/
def promptAndLogin (w : World) : RunResult :=
  let email := pyStrip w.emailLine
  if email = "" then
    { exitCode := some 1, prompted := true, loginCalled := none
      sessionSaved := false, configWarning := false, fileAfter := w.configFile }
  else
    let password := pyStrip w.passwordLine
    if password = "" then
      { exitCode := some 1, prompted := true, loginCalled := none
        sessionSaved := false, configWarning := false, fileAfter := w.configFile }
    else if w.loginRaises then
      { exitCode := some 1, prompted := true, loginCalled := some (email, password)
        sessionSaved := false, configWarning := false, fileAfter := w.configFile }
    else if w.saveRaises then
      { exitCode := some 1, prompted := true, loginCalled := some (email, password)
        sessionSaved := false, configWarning := false, fileAfter := w.configFile }
    else
      { exitCode := none, prompted := true, loginCalled := some (email, password)
        sessionSaved := true
        configWarning := (configPhase w.configFile email password w.dumpRaises w.verifyRaises).2
        fileAfter := (configPhase w.configFile email password w.dumpRaises w.verifyRaises).1 }

/-- The session-resolution part of `main` (source lines 18-103): resume
when possible, otherwise prompt and log in. -/
def resolve (w : World) : RunResult :=
  if sessionValid w then
    { exitCode := none, prompted := false, loginCalled := none
      sessionSaved := false, configWarning := false, fileAfter := w.configFile }
  else promptAndLogin w

/-- Python `list.insert(i, x)`: inserts before position `i`, appending when
`i` is at or beyond the end of the list. -/
def pyInsert {α : Type} (i : Nat) (x : α) (l : List α) : List α :=
  l.take i ++ x :: l.drop i

/-- Source lines 167-172: when the string "-f" is not an element of
sys.argv, insert the config directory path at index 1 and then "-f" at
index 1, so that the pair follows argv[0]; otherwise leave argv alone. -/
def injectF (configDirPath : String) (argv : List String) : List String :=
  if "-f" ∈ argv then argv
  else pyInsert 1 "-f" (pyInsert 1 configDirPath argv)

/-- Source line 111. -/
def target_cli : String := "garmindb_cli.py"

/-- Source line 138: the hard-coded fallback used when the target script is
found neither via argv nor on the search path. -/
def fallbackTarget : String := "/usr/local/bin/garmindb_cli.py"

/-- Source lines 125-128: the PATH directories, with "/usr/local/bin"
appended when not already present. -/
def searchDirs (pathDirs : List String) : List String :=
  if "/usr/local/bin" ∈ pathDirs then pathDirs else pathDirs ++ ["/usr/local/bin"]

/-- Python `str.endswith(suffix)`, used at source line 115, modelled on the
underlying character lists. -/
def pyEndsWith (s suffix : String) : Bool :=
  suffix.data.isSuffixOf s.data

/-- Python os.path.join for the call at source line 131 (plain two-part
join; an empty or slash-terminated directory adds no separator). -/
def joinPath (d f : String) : String :=
  if d = "" then f else if pyEndsWith d "/" then d ++ f else d ++ "/" ++ f

/-- Result of the locator at source lines 110-138: the chosen target path
and sys.argv after the pop at line 121 (when the explicit-path branch was
taken). -/
structure Locate : Type where
  target : String
  argvAfter : List String

/-- Source lines 110-138: prefer an explicit existing `.py` path given as
argv[1] (popping argv[0]); otherwise search the PATH directories plus
"/usr/local/bin" for garmindb_cli.py; otherwise fall back to the
hard-coded path whether or not anything exists there. -/
def locateTarget (argv : List String) (pathDirs : List String)
    (fileExists : String → Bool) : Locate :=
  let explicit : Option Locate :=
    match argv with
    | _a0 :: a1 :: rest =>
        if pyEndsWith a1 ".py" && fileExists a1 then
          some { target := a1, argvAfter := a1 :: rest }
        else none
    | _ => none
  match explicit with
  | some l => l
  | none =>
      match (searchDirs pathDirs).find? (fun d => fileExists (joinPath d target_cli)) with
      | some d => { target := joinPath d target_cli, argvAfter := argv }
      | none => { target := fallbackTarget, argvAfter := argv }

/-- Source line 103: exit status used when garth.login (or the session
save) raises. -/
def loginFailExitCode : Nat := 1

/-- Source line 180: exit status used when runpy.run_path raises, which
includes the FileNotFoundError raised for an absent target script. -/
def execFailExitCode : Nat := 1

/-- Source lines 157-180 restricted to the script-location aspect:
runpy.run_path(target_path) raises FileNotFoundError when the script is
absent, which the except at line 176 turns into sys.exit(1); when the
script exists it is executed (its own behaviour is out of scope and
modelled as success). -/
def runTargetScript (fileExists : String → Bool) (target : String) : Except Nat Unit :=
  if fileExists target then Except.ok () else Except.error execFailExitCode

/-- The parts of the garth module that the monkey-patch at source lines
140-152 touches: the authenticated global `garth.client` and the
`garth.Client` constructor, over arbitrary constructor-argument and client
types. -/
structure GarthModule (Args Client : Type) : Type where
  client : Client
  clientCtor : Args → Client

/-- Source lines 147-150: `AuthenticatedClientProxy.__new__` ignores its
arguments and returns the global `garth.client`. -/
def AuthenticatedClientProxyNew {Args Client : Type}
    (g : GarthModule Args Client) (_a : Args) : Client :=
  g.client

/-- Source line 152: `garth.Client = AuthenticatedClientProxy` replaces the
constructor with the proxy. -/
def installProxy {Args Client : Type} (g : GarthModule Args Client) :
    GarthModule Args Client :=
  { g with clientCtor := AuthenticatedClientProxyNew g }

/-- The garth module as the downstream tool observes it: the substitution
at line 152 executes before runpy.run_path at line 174, so the tool runs
against the patched module. -/
def moduleSeenByDownstream {Args Client : Type} (g : GarthModule Args Client) :
    GarthModule Args Client :=
  installProxy g

/-- Contents of the config file at one instant during the in-place write
at source lines 88-89: either the complete serialization of a document, or
the truncated or prefix text left between `open(config_file, "w")` (which
truncates immediately) and the completion of json.dump. -/
inductive DiskContent : Type
  | json (d : Doc)
  | truncated

/-- The successive on-disk contents during the write at source lines
88-89: the old document, then the truncated or prefix state produced by
opening the same file in "w" mode and writing into it in place, then the
complete new document. There is no temporary file and no atomic replace in
the source. -/
def writeTrace (old new : Doc) : List DiskContent :=
  [DiskContent.json old, DiskContent.truncated, DiskContent.json new]

/-- The shape GarminConnectConfig.json is expected to have: when a
top-level `credentials` entry is present, its value is a JSON object, so
that the nested assignments at source lines 85-86 do not raise. -/
def credsObjShaped (d : Doc) : Prop :=
  ∀ v, getKey d "credentials" = some v → ∃ o, v = JVal.obj o

theorem find?_key_eq_none (d : Doc) (k : String) (h : hasKey d k = false) :
    d.find? (fun kv => kv.1 == k) = none := by
  induction d with
  | nil => rfl
  | cons a t ih =>
      simp only [hasKey, List.any_cons, Bool.or_eq_false_iff] at h
      rw [List.find?_cons_of_neg _ (by simp [h.1])]
      exact ih (by simp only [hasKey]; exact h.2)

theorem getKey_append_single (d : Doc) (k : String) (v : JVal) (h : hasKey d k = false) :
    getKey (d ++ [(k, v)]) k = some v := by
  unfold getKey
  rw [List.find?_append, find?_key_eq_none d k h]
  simp

theorem getKey_append_single_ne (d : Doc) (k k' : String) (v : JVal) (h : k' ≠ k) :
    getKey (d ++ [(k, v)]) k' = getKey d k' := by
  unfold getKey
  rw [List.find?_append]
  have hsingle : List.find? (fun kv => kv.1 == k') [(k, v)] = none := by
    rw [List.find?_cons_of_neg _ ?_]
    · rfl
    · simp only [beq_iff_eq]
      exact fun hh => h hh.symm
  rw [hsingle]
  simp

theorem getKey_isSome_of_hasKey (d : Doc) (k : String) (h : hasKey d k = true) :
    ∃ v, getKey d k = some v := by
  induction d with
  | nil => simp [hasKey] at h
  | cons a t ih =>
      by_cases ha : (a.1 == k) = true
      · exact ⟨a.2, by
          unfold getKey
          rw [List.find?_cons_of_pos (p := fun kv : String × JVal => kv.1 == k) _ ha]
          rfl⟩
      · have ht : hasKey t k = true := by
          simp only [hasKey, List.any_cons, Bool.or_eq_true] at h
          rcases h with h | h
          · exact absurd h ha
          · simpa [hasKey] using h
        obtain ⟨v, hv⟩ := ih ht
        refine ⟨v, ?_⟩
        unfold getKey at hv ⊢
        rw [List.find?_cons_of_neg (p := fun kv : String × JVal => kv.1 == k) _ ha]
        exact hv

theorem find?_setKey_map (d : Doc) (k : String) (v : JVal) (h : hasKey d k = true) :
    (d.map (fun kv => if kv.1 == k then (k, v) else kv)).find? (fun kv => kv.1 == k)
      = some (k, v) := by
  induction d with
  | nil => simp [hasKey] at h
  | cons a t ih =>
      by_cases ha : (a.1 == k) = true
      · simp only [List.map_cons, ha, if_true]
        rw [List.find?_cons_of_pos _ (by simp)]
      · simp only [List.map_cons, if_neg ha]
        rw [List.find?_cons_of_neg (p := fun kv : String × JVal => kv.1 == k) _ ha]
        refine ih ?_
        simp only [hasKey, List.any_cons, Bool.or_eq_true] at h
        rcases h with h | h
        · exact absurd h ha
        · simpa [hasKey] using h

theorem find?_setKey_map_ne (d : Doc) (k k' : String) (v : JVal) (hne : k' ≠ k) :
    (d.map (fun kv => if kv.1 == k then (k, v) else kv)).find? (fun kv => kv.1 == k')
      = d.find? (fun kv => kv.1 == k') := by
  induction d with
  | nil => rfl
  | cons a t ih =>
      by_cases ha : (a.1 == k) = true
      · have ha' : a.1 = k := by simpa [beq_iff_eq] using ha
        simp only [List.map_cons, ha, if_true]
        rw [List.find?_cons_of_neg _ (by simp only [beq_iff_eq]; exact fun hh => hne hh.symm),
            List.find?_cons_of_neg _ (by simp only [beq_iff_eq, ha']; exact fun hh => hne hh.symm)]
        exact ih
      · simp only [List.map_cons, if_neg ha]
        by_cases hpa : (a.1 == k') = true
        · rw [List.find?_cons_of_pos (p := fun kv : String × JVal => kv.1 == k') _ hpa,
              List.find?_cons_of_pos (p := fun kv : String × JVal => kv.1 == k') _ hpa]
        · rw [List.find?_cons_of_neg (p := fun kv : String × JVal => kv.1 == k') _ hpa,
              List.find?_cons_of_neg (p := fun kv : String × JVal => kv.1 == k') _ hpa]
          exact ih

theorem getKey_setKey_self (d : Doc) (k : String) (v : JVal) :
    getKey (setKey d k v) k = some v := by
  unfold setKey
  by_cases h : hasKey d k = true
  · rw [if_pos h]
    unfold getKey
    rw [find?_setKey_map d k v h]
    rfl
  · rw [if_neg h]
    exact getKey_append_single d k v (by rwa [Bool.not_eq_true] at h)

theorem getKey_setKey_ne (d : Doc) (k k' : String) (v : JVal) (h : k' ≠ k) :
    getKey (setKey d k v) k' = getKey d k' := by
  unfold setKey
  by_cases hk : hasKey d k = true
  · rw [if_pos hk]
    unfold getKey
    rw [find?_setKey_map_ne d k k' v h]
  · rw [if_neg hk]
    exact getKey_append_single_ne d k k' v h

theorem getKey_ensureCredentials (d : Doc) (hshape : credsObjShaped d) :
    ∃ o, getKey (ensureCredentials d) "credentials" = some (JVal.obj o) := by
  unfold ensureCredentials
  by_cases h : hasKey d "credentials" = true
  · rw [if_pos h]
    obtain ⟨v, hv⟩ := getKey_isSome_of_hasKey d _ h
    obtain ⟨o, rfl⟩ := hshape v hv
    exact ⟨o, hv⟩
  · rw [if_neg h]
    exact ⟨[], getKey_append_single d _ _ (by rwa [Bool.not_eq_true] at h)⟩

theorem getKey_ensureCredentials_ne (d : Doc) (k : String) (h : k ≠ "credentials") :
    getKey (ensureCredentials d) k = getKey d k := by
  unfold ensureCredentials
  by_cases hc : hasKey d "credentials" = true
  · rw [if_pos hc]
  · rw [if_neg hc]
    exact getKey_append_single_ne d _ k _ h

theorem updateConfig_spec (d : Doc) (u pw : String) (hshape : credsObjShaped d) :
    ∃ d', updateConfig d u pw = WriteResult.written d' ∧
      (∃ o, getKey d' "credentials" = some (JVal.obj o) ∧
        getKey o "username" = some (JVal.str u) ∧
        getKey o "password" = some (JVal.str pw)) ∧
      ∀ k, k ≠ "credentials" → getKey d' k = getKey d k := by
  obtain ⟨o, ho⟩ := getKey_ensureCredentials d hshape
  refine ⟨setKey (ensureCredentials d) "credentials"
      (JVal.obj (setKey (setKey o "username" (JVal.str u)) "password" (JVal.str pw))),
      ?_, ?_, ?_⟩
  · unfold updateConfig
    rw [ho]
  · refine ⟨setKey (setKey o "username" (JVal.str u)) "password" (JVal.str pw),
      getKey_setKey_self _ _ _, ?_, getKey_setKey_self _ _ _⟩
    rw [getKey_setKey_ne _ _ _ _ (by decide)]
    exact getKey_setKey_self _ _ _
  · intro k hk
    rw [getKey_setKey_ne _ _ _ _ hk, getKey_ensureCredentials_ne d k hk]

theorem promptAndLogin_prompted (w : World) : (promptAndLogin w).prompted = true := by
  unfold promptAndLogin
  by_cases he : pyStrip w.emailLine = ""
  · simp [he]
  · by_cases hp : pyStrip w.passwordLine = ""
    · simp [he, hp]
    · by_cases hl : w.loginRaises = true
      · simp [he, hp, hl]
      · by_cases hsv : w.saveRaises = true <;> simp [he, hp, hl, hsv]

theorem configPhase_snd_of_raise (file : ConfigFile) (e p : String) (dr vr : Bool)
    (h : dr = true ∨ vr = true) :
    (configPhase file e p dr vr).2 = true := by
  unfold configPhase
  cases hm : updateConfig (readConfigDocument file) e p with
  | written d =>
      rcases h with h | h
      · simp [h]
      · by_cases hd : dr = true <;> simp [hd, h]
  | raised => rfl

/-- C1: when the session directory is absent, or resume raises, or the
liveness probe fails, the resolver treats the session as invalid and
proceeds to interactive prompting; none of the three conditions
terminates the process. -/
theorem claim_session_invalid_nonfatal (w : World)
    (h : w.sessionDirExists = false ∨ w.resumeRaises = true ∨ w.probeRaises = true) :
    sessionValid w = false ∧ (resolve w).prompted = true := by
  have hs : sessionValid w = false := by
    unfold sessionValid
    rcases h with h | h | h <;> simp [h]
  refine ⟨hs, ?_⟩
  unfold resolve
  rw [if_neg (by simp [hs])]
  exact promptAndLogin_prompted w

/-- Witness for C1 at a concrete world with no session directory. -/
theorem claim_session_invalid_nonfatal_witness :
    sessionValid ⟨false, false, false, "alice", "secret123", false, false,
        ConfigFile.absent, false, false⟩ = false ∧
    (resolve ⟨false, false, false, "alice", "secret123", false, false,
        ConfigFile.absent, false, false⟩).prompted = true :=
  claim_session_invalid_nonfatal _ (Or.inl rfl)

/-- C2: an empty (post-strip) username or password line makes the process
exit with status 1 before garth.login is invoked, and login is never
called with blank credentials. -/
theorem claim_empty_credentials_fatal (w : World) (hs : sessionValid w = false) :
    ((pyStrip w.emailLine = "" ∨ pyStrip w.passwordLine = "") →
       (resolve w).exitCode = some 1 ∧ (resolve w).loginCalled = none) ∧
    ∀ u p, (resolve w).loginCalled = some (u, p) → u ≠ "" ∧ p ≠ "" := by
  unfold resolve
  rw [if_neg (by simp [hs])]
  unfold promptAndLogin
  constructor
  · rintro (h | h)
    · simp [h]
    · by_cases he : pyStrip w.emailLine = "" <;> simp [he, h]
  · intro u p hup
    by_cases he : pyStrip w.emailLine = ""
    · simp [he] at hup
    · by_cases hp : pyStrip w.passwordLine = ""
      · simp [he, hp] at hup
      · rw [if_neg he, if_neg hp] at hup
        by_cases hl : w.loginRaises = true
        · rw [if_pos hl] at hup
          simp only [Option.some.injEq, Prod.mk.injEq] at hup
          exact ⟨hup.1 ▸ he, hup.2 ▸ hp⟩
        · rw [if_neg hl] at hup
          by_cases hsv : w.saveRaises = true
          · rw [if_pos hsv] at hup
            simp only [Option.some.injEq, Prod.mk.injEq] at hup
            exact ⟨hup.1 ▸ he, hup.2 ▸ hp⟩
          · rw [if_neg hsv] at hup
            simp only [Option.some.injEq, Prod.mk.injEq] at hup
            exact ⟨hup.1 ▸ he, hup.2 ▸ hp⟩

/-- Witness for C2 at a concrete world whose username line is empty. -/
theorem claim_empty_credentials_fatal_witness :
    (resolve ⟨false, false, false, "", "secret123", false, false,
        ConfigFile.absent, false, false⟩).exitCode = some 1 ∧
    (resolve ⟨false, false, false, "", "secret123", false, false,
        ConfigFile.absent, false, false⟩).loginCalled = none :=
  (claim_empty_credentials_fatal ⟨false, false, false, "", "secret123", false, false,
      ConfigFile.absent, false, false⟩ rfl).1 (Or.inl rfl)

/-- C7: when garth.login raises, the process exits with status 1, no
session save occurs, and the config file is untouched (no handoff, the one
fatal path of the resolver). -/
theorem claim_login_failure_fatal (w : World) (hs : sessionValid w = false)
    (he : pyStrip w.emailLine ≠ "") (hp : pyStrip w.passwordLine ≠ "")
    (hl : w.loginRaises = true) :
    (resolve w).exitCode = some loginFailExitCode ∧
    (resolve w).sessionSaved = false ∧
    (resolve w).fileAfter = w.configFile := by
  unfold resolve
  rw [if_neg (by simp [hs])]
  unfold promptAndLogin
  simp [he, hp, hl, loginFailExitCode]

/-- Witness for C7 at a concrete world whose login raises. -/
theorem claim_login_failure_fatal_witness :
    (resolve ⟨false, false, false, "alice", "secret123", true, false,
        ConfigFile.absent, false, false⟩).exitCode = some loginFailExitCode ∧
    (resolve ⟨false, false, false, "alice", "secret123", true, false,
        ConfigFile.absent, false, false⟩).sessionSaved = false ∧
    (resolve ⟨false, false, false, "alice", "secret123", true, false,
        ConfigFile.absent, false, false⟩).fileAfter = ConfigFile.absent :=
  claim_login_failure_fatal _ rfl (by decide) (by decide) rfl

/-- C8: when login and the session save succeed but writing or verifying
the config file raises, the run only records a warning: the session is
saved and control still reaches the handoff (exit code none). -/
theorem claim_config_write_warning_only (w : World) (hs : sessionValid w = false)
    (he : pyStrip w.emailLine ≠ "") (hp : pyStrip w.passwordLine ≠ "")
    (hl : w.loginRaises = false) (hsv : w.saveRaises = false)
    (hr : w.dumpRaises = true ∨ w.verifyRaises = true) :
    (resolve w).exitCode = none ∧ (resolve w).sessionSaved = true ∧
    (resolve w).configWarning = true := by
  unfold resolve
  rw [if_neg (by simp [hs])]
  unfold promptAndLogin
  simp [he, hp, hl, hsv]
  exact configPhase_snd_of_raise _ _ _ _ _ hr

theorem updateConfig_nil (u pw : String) :
    updateConfig [] u pw = WriteResult.written
      [("credentials", JVal.obj [("username", JVal.str u), ("password", JVal.str pw)])] := rfl

/-- C4: an absent or syntactically invalid config file is read as the
empty document rather than a failure, the flow is not aborted by it, and
after a successful login the file is overwritten with a valid document
whose only top-level key is `credentials`. -/
theorem claim_corrupt_config_defaulted (w : World)
    (hf : w.configFile = ConfigFile.absent ∨ w.configFile = ConfigFile.invalid)
    (hs : sessionValid w = false) (he : pyStrip w.emailLine ≠ "")
    (hp : pyStrip w.passwordLine ≠ "") (hl : w.loginRaises = false)
    (hsv : w.saveRaises = false) (hd : w.dumpRaises = false) (hv : w.verifyRaises = false) :
    readConfigDocument w.configFile = [] ∧
    (resolve w).exitCode = none ∧
    (resolve w).fileAfter = ConfigFile.valid
      [("credentials", JVal.obj [("username", JVal.str (pyStrip w.emailLine)),
                                 ("password", JVal.str (pyStrip w.passwordLine))])] := by
  have hread : readConfigDocument w.configFile = [] := by
    rcases hf with h | h <;> rw [h] <;> rfl
  refine ⟨hread, ?_, ?_⟩
  · unfold resolve
    rw [if_neg (by simp [hs])]
    unfold promptAndLogin
    simp [he, hp, hl, hsv]
  · unfold resolve
    rw [if_neg (by simp [hs])]
    unfold promptAndLogin
    simp only [he, hp, hl, hsv]
    simp only [Bool.false_eq_true, if_neg he, if_neg hp, if_false]
    rw [hd, hv]
    unfold configPhase
    rw [hread, updateConfig_nil]
    rfl

/-- Witness for C4 at a concrete world whose config file holds invalid
syntax. -/
theorem claim_corrupt_config_defaulted_witness :
    readConfigDocument
      ((⟨false, false, false, "alice", "secret123", false, false,
          ConfigFile.invalid, false, false⟩ : World).configFile) = [] ∧
    (resolve ⟨false, false, false, "alice", "secret123", false, false,
        ConfigFile.invalid, false, false⟩).exitCode = none ∧
    (resolve ⟨false, false, false, "alice", "secret123", false, false,
        ConfigFile.invalid, false, false⟩).fileAfter = ConfigFile.valid
      [("credentials", JVal.obj [("username", JVal.str "alice"),
                                 ("password", JVal.str "secret123")])] :=
  claim_corrupt_config_defaulted
    ⟨false, false, false, "alice", "secret123", false, false,
        ConfigFile.invalid, false, false⟩
    (Or.inr rfl) rfl (by decide) (by decide) rfl rfl rfl rfl

/-- C3 counterexample: the claim fails as stated. With the pre-existing
document assigning the number 5 to the `credentials` key, a successful
interactive login with alice and secret123 writes nothing: the nested
assignment at line 85 raises TypeError, the except at line 98 only warns,
and the file keeps the old document, which does not carry the submitted
credentials. -/
theorem claim_credential_merge_counterexample :
    updateConfig [("credentials", JVal.num 5), ("other", JVal.str "keep")]
        "alice" "secret123" = WriteResult.raised ∧
    (resolve ⟨false, false, false, "alice", "secret123", false, false,
        ConfigFile.valid [("credentials", JVal.num 5), ("other", JVal.str "keep")],
        false, false⟩).loginCalled = some ("alice", "secret123") ∧
    (resolve ⟨false, false, false, "alice", "secret123", false, false,
        ConfigFile.valid [("credentials", JVal.num 5), ("other", JVal.str "keep")],
        false, false⟩).fileAfter
      = ConfigFile.valid [("credentials", JVal.num 5), ("other", JVal.str "keep")] ∧
    (resolve ⟨false, false, false, "alice", "secret123", false, false,
        ConfigFile.valid [("credentials", JVal.num 5), ("other", JVal.str "keep")],
        false, false⟩).configWarning = true :=
  ⟨rfl, rfl, rfl, rfl⟩

/-- C3 (amended): for every successful interactive login and every
pre-existing document whose `credentials` key, when present, holds a JSON
object, the written document carries the submitted username and password
under `credentials` and leaves every other pre-existing top-level key
unchanged. -/
theorem claim_credential_merge_amended (w : World) (d : Doc)
    (hs : sessionValid w = false) (he : pyStrip w.emailLine ≠ "")
    (hp : pyStrip w.passwordLine ≠ "") (hl : w.loginRaises = false)
    (hsv : w.saveRaises = false) (hd : w.dumpRaises = false) (hv : w.verifyRaises = false)
    (hcf : w.configFile = ConfigFile.valid d) (hshape : credsObjShaped d) :
    ∃ d', (resolve w).fileAfter = ConfigFile.valid d' ∧
      (∃ o, getKey d' "credentials" = some (JVal.obj o) ∧
        getKey o "username" = some (JVal.str (pyStrip w.emailLine)) ∧
        getKey o "password" = some (JVal.str (pyStrip w.passwordLine))) ∧
      ∀ k, k ≠ "credentials" → getKey d' k = getKey d k := by
  obtain ⟨d', hw, hcred, hother⟩ :=
    updateConfig_spec d (pyStrip w.emailLine) (pyStrip w.passwordLine) hshape
  refine ⟨d', ?_, hcred, hother⟩
  unfold resolve
  rw [if_neg (by simp [hs])]
  unfold promptAndLogin
  simp only [he, hp, hl, hsv]
  simp only [Bool.false_eq_true, if_neg he, if_neg hp, if_false]
  rw [hcf, hd, hv]
  unfold configPhase
  simp only [readConfigDocument]
  rw [hw]
  rfl

/-- Witness for the amended C3 at a concrete world with a pre-existing
unrelated key. -/
theorem claim_credential_merge_amended_witness :
    ∃ d', (resolve ⟨false, false, false, "alice", "secret123", false, false,
        ConfigFile.valid [("garmin", JVal.str "stay")], false, false⟩).fileAfter
        = ConfigFile.valid d' ∧
      (∃ o, getKey d' "credentials" = some (JVal.obj o) ∧
        getKey o "username" = some (JVal.str "alice") ∧
        getKey o "password" = some (JVal.str "secret123")) ∧
      ∀ k, k ≠ "credentials" → getKey d' k = getKey [("garmin", JVal.str "stay")] k :=
  claim_credential_merge_amended
    ⟨false, false, false, "alice", "secret123", false, false,
        ConfigFile.valid [("garmin", JVal.str "stay")], false, false⟩
    [("garmin", JVal.str "stay")]
    rfl (by decide) (by decide) rfl rfl rfl rfl rfl
    (fun v hv => by
      rw [show getKey [("garmin", JVal.str "stay")] "credentials" = none from rfl] at hv
      exact Option.noConfusion hv)

/-- Witness for C8 at a concrete world whose config write raises. -/
theorem claim_config_write_warning_only_witness :
    (resolve ⟨false, false, false, "alice", "secret123", false, false,
        ConfigFile.absent, true, false⟩).exitCode = none ∧
    (resolve ⟨false, false, false, "alice", "secret123", false, false,
        ConfigFile.absent, true, false⟩).sessionSaved = true ∧
    (resolve ⟨false, false, false, "alice", "secret123", false, false,
        ConfigFile.absent, true, false⟩).configWarning = true :=
  claim_config_write_warning_only _ rfl (by decide) (by decide) rfl rfl (Or.inl rfl)

/-- C5: for a caller argument vector (sys.argv, hence nonempty, and with
the injected config directory path differing from the flag string) that
does not contain "-f", the injection at lines 167-172 yields exactly one
"-f" followed by the path, placed right after argv[0], with every other
argument kept in its original order; a vector already containing "-f" is
left unchanged. -/
theorem claim_inject_f_once (cfg : String) (argv : List String)
    (hcfg : cfg ≠ "-f") (hne : argv ≠ []) :
    (("-f" ∉ argv) →
       (injectF cfg argv).count "-f" = 1 ∧
       injectF cfg argv = argv.take 1 ++ "-f" :: cfg :: argv.drop 1) ∧
    (("-f" ∈ argv) → injectF cfg argv = argv) := by
  constructor
  · intro h
    have heq : injectF cfg argv = argv.take 1 ++ "-f" :: cfg :: argv.drop 1 := by
      unfold injectF
      rw [if_neg h]
      cases argv with
      | nil => exact absurd rfl hne
      | cons a t => rfl
    refine ⟨?_, heq⟩
    have ht : ("-f" : String) ∉ argv.take 1 := fun hm => h (List.take_subset _ _ hm)
    have hd : ("-f" : String) ∉ argv.drop 1 := fun hm => h (List.drop_subset _ _ hm)
    rw [heq, List.count_append, List.count_cons, List.count_cons,
        List.count_eq_zero.mpr ht, List.count_eq_zero.mpr hd]
    simp [hcfg]
  · intro h
    unfold injectF
    rw [if_pos h]

/-- Witness for C5: one concrete vector without "-f" and one with it. -/
theorem claim_inject_f_once_witness :
    ((injectF "/root/.GarminDb" ["garmindb_cli.py", "--all"]).count "-f" = 1 ∧
     injectF "/root/.GarminDb" ["garmindb_cli.py", "--all"]
       = ["garmindb_cli.py", "-f", "/root/.GarminDb", "--all"]) ∧
    injectF "/root/.GarminDb" ["garmindb_cli.py", "-f", "/tmp/cfg", "--all"]
      = ["garmindb_cli.py", "-f", "/tmp/cfg", "--all"] := by
  constructor
  · have h := (claim_inject_f_once "/root/.GarminDb" ["garmindb_cli.py", "--all"]
      (by decide) (by decide)).1 (by decide)
    exact ⟨h.1, h.2⟩
  · exact (claim_inject_f_once "/root/.GarminDb" ["garmindb_cli.py", "-f", "/tmp/cfg", "--all"]
      (by decide) (by decide)).2 (by decide)

/-- C6 counterexample: the claim fails as stated. When the target script
exists nowhere, the locator does not stop with a distinct not-found
status: it falls back to the hard-coded path, execution is attempted
there via runpy.run_path, and the resulting exit status 1 is the very
same status used for a login failure, so it is not distinguishable. -/
theorem claim_target_not_found_counterexample :
    (locateTarget ["garmin_auth_wrapper.py", "--all"] ["/usr/bin"] (fun _ => false)).target
      = fallbackTarget ∧
    runTargetScript (fun _ => false) fallbackTarget = Except.error execFailExitCode ∧
    execFailExitCode = loginFailExitCode :=
  ⟨rfl, rfl, rfl⟩

/-- C6 (amended): when the target executable is absent from the explicit
argv path and from every searched location, the locator falls back to the
hard-coded path, execution is attempted there and fails, and the process
exits with status 1, the same status as a login failure rather than a
distinct not-found status. -/
theorem claim_target_not_found_amended (argv : List String) (pathDirs : List String)
    (fileExists : String → Bool) (h : ∀ p, fileExists p = false) :
    (locateTarget argv pathDirs fileExists).target = fallbackTarget ∧
    runTargetScript fileExists fallbackTarget = Except.error execFailExitCode ∧
    execFailExitCode = loginFailExitCode := by
  have hrun : runTargetScript fileExists fallbackTarget = Except.error execFailExitCode := by
    unfold runTargetScript
    rw [h fallbackTarget]
    rfl
  refine ⟨?_, hrun, rfl⟩
  unfold locateTarget
  have hfind : (searchDirs pathDirs).find? (fun d => fileExists (joinPath d target_cli))
      = none :=
    List.find?_eq_none.mpr (fun x _ => by simp [h])
  match argv with
  | [] => simp [hfind]
  | [a0] => simp [hfind]
  | a0 :: a1 :: rest => simp [h a1, hfind]

/-- Witness for the amended C6 at a concrete environment in which no file
exists. -/
theorem claim_target_not_found_amended_witness :
    (locateTarget ["garmin_auth_wrapper.py"] [] (fun _ => false)).target = fallbackTarget ∧
    runTargetScript (fun _ => false) fallbackTarget = Except.error execFailExitCode ∧
    execFailExitCode = loginFailExitCode :=
  claim_target_not_found_amended ["garmin_auth_wrapper.py"] [] (fun _ => false)
    (fun _ => rfl)

/-- C9 counterexample: the claim fails as stated. The write at lines
88-89 is in place: open(config_file, "w") truncates the previously valid
file before json.dump writes the new text, so during the write the
on-disk contents pass through a state that is neither the old document
nor the complete new one. -/
theorem claim_atomic_write_counterexample :
    ¬ (∀ s ∈ writeTrace [("token", JVal.str "t")]
          [("credentials", JVal.obj [("username", JVal.str "alice"),
                                     ("password", JVal.str "secret123")])],
        s = DiskContent.json [("token", JVal.str "t")] ∨
        s = DiskContent.json [("credentials",
              JVal.obj [("username", JVal.str "alice"),
                        ("password", JVal.str "secret123")])]) := by
  intro hall
  have h := hall DiskContent.truncated (by simp [writeTrace])
  rcases h with h | h <;> exact DiskContent.noConfusion h

/-- C9 (amended): the credential write is not atomic: for every old and
new document, the in-place write passes through the truncated state,
which is not the serialization of any document; there is no
write-to-temp-then-replace step in the source. -/
theorem claim_atomic_write_amended (old new : Doc) :
    DiskContent.truncated ∈ writeTrace old new ∧
    ∀ d, DiskContent.truncated ≠ DiskContent.json d :=
  ⟨by simp [writeTrace], fun _ h => DiskContent.noConfusion h⟩

/-- C10: in the in-process handoff the constructor substitution at line
152 is installed before runpy.run_path runs the downstream tool at line
174, so the module the tool observes is the patched one, on which every
construction of the auth client, whatever its arguments, returns the
already authenticated global client: the tool cannot obtain a second,
unauthenticated identity. -/
theorem claim_proxy_substitution {Args Client : Type}
    (g : GarthModule Args Client) (a : Args) :
    (moduleSeenByDownstream g).clientCtor a = g.client := rfl

end GarminAuthWrapper
